import Mathlib

/-!
Verification of the medical-guideline retrieval core
(`src/services/vector_search.py` and `src/services/medical_knowledge_graph.py`)
against its natural-language specification.

The Python code is shallowly embedded: dictionaries become structures,
`networkx` graph state becomes explicit node/edge lists, floats become `ℚ`,
and the external sentence-embedding model is abstracted as a pure scoring
function `String → Doc → ℚ` (the spec treats the embedding provider as pure
and stateless).  Python string operations (`.lower()`, `.split()`, `in`,
`sorted`) are modelled by executable character-list functions below.
-/

/-! ### String primitives (models of Python `.lower()`, `.split()`, `in`, `<=`) -/

/-- Model of Python `str.lower()` (ASCII, which covers all data in this code). -/
def lowerStr (s : String) : String := String.mk (s.data.map Char.toLower)

/-- Helper for `pySplit`: accumulate characters into space-separated words,
dropping empty tokens, as Python `str.split()` does. -/
def wordsAux : List Char → List Char → List String
  | acc, [] => if acc.isEmpty then [] else [String.mk acc.reverse]
  | acc, c :: cs =>
    if c == ' ' then
      (if acc.isEmpty then wordsAux [] cs else String.mk acc.reverse :: wordsAux [] cs)
    else wordsAux (c :: acc) cs

/-- Model of Python `str.split()` (whitespace tokenisation, no empty tokens). -/
def pySplit (s : String) : List String := wordsAux [] s.data

/-- Does `hay` start with `needle` (on character lists)? -/
def charsStart : List Char → List Char → Bool
  | [], _ => true
  | _ :: _, [] => false
  | a :: as, b :: bs => a == b && charsStart as bs

/-- Is `needle` a contiguous substring of `hay` (on character lists)?
Models Python `needle in hay`. -/
def charsSub (needle : List Char) : List Char → Bool
  | [] => needle.isEmpty
  | b :: bs => charsStart needle (b :: bs) || charsSub needle bs

/-- Model of Python substring test `needle in hay` on strings. -/
def strHasTerm (hay needle : String) : Bool := charsSub needle.data hay.data

/-- Lexicographic comparison of character lists by code point,
the order Python uses to compare strings. -/
def charsLe : List Char → List Char → Bool
  | [], _ => true
  | _ :: _, [] => false
  | a :: as, b :: bs => if a < b then true else if b < a then false else charsLe as bs

/-- Model of Python string comparison `a <= b` (code-point lexicographic). -/
def strLe (a b : String) : Bool := charsLe a.data b.data

/-- Model of Python `tuple(sorted([a, b]))`: the pair in nondecreasing order. -/
def sortPair (a b : String) : String × String := if strLe a b then (a, b) else (b, a)

/-- Size of the intersection of two Python sets, represented as duplicate-free
lists: the number of elements of `a` that also occur in `b`. -/
def interCount (a b : List String) : Nat := (a.filter (fun x => b.contains x)).length

/-! ### Knowledge graph (`medical_knowledge_graph.py`) -/

namespace MedicalKnowledgeGraph

/-- Static drug-class table from `_load_drug_classifications`. -/
def drug_classes : List (String × List String) := [
  ("aspirin", ["antiplatelet", "analgesic", "anti-inflammatory"]),
  ("metformin", ["antidiabetic", "biguanide"]),
  ("lisinopril", ["ace_inhibitor", "antihypertensive"]),
  ("atorvastatin", ["statin", "lipid_lowering"]),
  ("levothyroxine", ["thyroid_hormone", "hormone_replacement"]),
  ("metoprolol", ["beta_blocker", "antihypertensive"]),
  ("amlodipine", ["calcium_channel_blocker", "antihypertensive"]),
  ("omeprazole", ["proton_pump_inhibitor", "acid_reducer"]),
  ("warfarin", ["anticoagulant", "blood_thinner"]),
  ("insulin", ["antidiabetic", "hormone"])]

/-- The `self.therapeutic_classes` lookup dict (same contents as the table). -/
def therapeutic_classes : List (String × List String) := drug_classes

/-- Static indication table from `_load_therapeutic_indications`. -/
def indication_mappings : List (String × List String) := [
  ("aspirin", ["cardiovascular_disease", "pain", "inflammation", "stroke_prevention"]),
  ("metformin", ["type2_diabetes", "prediabetes", "pcos"]),
  ("lisinopril", ["hypertension", "heart_failure", "diabetic_nephropathy"]),
  ("atorvastatin", ["hyperlipidemia", "cardiovascular_disease", "stroke_prevention"]),
  ("levothyroxine", ["hypothyroidism", "thyroid_cancer"]),
  ("metoprolol", ["hypertension", "heart_failure", "angina", "arrhythmia"]),
  ("amlodipine", ["hypertension", "angina"]),
  ("omeprazole", ["gerd", "peptic_ulcer", "acid_reflux"]),
  ("warfarin", ["atrial_fibrillation", "deep_vein_thrombosis", "pulmonary_embolism"]),
  ("insulin", ["type1_diabetes", "type2_diabetes"])]

/-- Severity/risk payload of one entry of the static interaction table. -/
structure InterInfo where
  severity : String
  risk : String
deriving DecidableEq, Repr

/-- The literal interaction table of `_load_drug_interactions`, keyed by the
pairs exactly as written in the source. -/
def raw_interactions : List ((String × String) × InterInfo) := [
  (("warfarin", "aspirin"), ⟨"major", "bleeding"⟩),
  (("warfarin", "omeprazole"), ⟨"moderate", "altered_anticoagulation"⟩),
  (("metformin", "insulin"), ⟨"minor", "hypoglycemia"⟩),
  (("lisinopril", "metoprolol"), ⟨"minor", "hypotension"⟩),
  (("atorvastatin", "amlodipine"), ⟨"moderate", "muscle_toxicity"⟩)]

/-- The `self.drug_interactions` dict: each raw pair canonicalised with
`tuple(sorted([drug1, drug2]))` before being used as the key. -/
def drug_interactions : List ((String × String) × InterInfo) :=
  raw_interactions.map (fun p => (sortPair p.1.1 p.1.2, p.2))

/-- Method `get_drug_interaction`: lowercase both names, sort the pair,
look it up in the interaction dict. -/
def get_drug_interaction (med1 med2 : String) : Option InterInfo :=
  drug_interactions.lookup (sortPair (lowerStr med1) (lowerStr med2))

/-- One element of the list returned by `analyze_drug_interactions`:
`{"drug1": med1, "drug2": med2, **interaction}`. -/
structure InterRecord where
  drug1 : String
  drug2 : String
  severity : String
  risk : String
deriving DecidableEq, Repr

/-- All ordered pairs `(medications[i], medications[j])` with `i < j`,
in the order the double loop of `analyze_drug_interactions` visits them. -/
def pairsAfter : List String → List (String × String)
  | [] => []
  | m :: ms => ms.map (fun m2 => (m, m2)) ++ pairsAfter ms

/-- Method `analyze_drug_interactions`: lowercase the input list, look up every
unordered pair, and emit one record per known pair (unknown pairs emit none). -/
def analyze_drug_interactions (medications : List String) : List InterRecord :=
  let meds := medications.map lowerStr
  (pairsAfter meds).filterMap (fun p =>
    (get_drug_interaction p.1 p.2).map (fun d => ⟨p.1, p.2, d.severity, d.risk⟩))

/-- Method `get_pharmacological_class`: case-insensitive dict lookup,
empty list on a miss. -/
def get_pharmacological_class (medication : String) : List String :=
  (therapeutic_classes.lookup (lowerStr medication)).getD []

/-- Method `get_therapeutic_indications`: case-insensitive dict lookup,
empty list on a miss. -/
def get_therapeutic_indications (medication : String) : List String :=
  (indication_mappings.lookup (lowerStr medication)).getD []

/-- Model of `networkx.Graph.add_node(n, type=t)`: the node set is an
association list name ↦ type attribute; re-adding overwrites the attribute. -/
def addNode (g : List (String × String)) (n t : String) : List (String × String) :=
  if g.any (fun p => p.1 == n) then g.map (fun p => if p.1 == n then (n, t) else p)
  else g ++ [(n, t)]

/-- Model of `networkx.Graph.has_node`. -/
def hasNode (g : List (String × String)) (n : String) : Bool :=
  g.any (fun p => p.1 == n)

/-- Graph nodes after `_load_drug_classifications`: for each drug, the drug
node then its class nodes, in table order. -/
def nodes_after_classes : List (String × String) :=
  drug_classes.foldl
    (fun g p => p.2.foldl (fun g2 c => addNode g2 c "drug_class") (addNode g p.1 "drug")) []

/-- Graph nodes after all three loaders.  `_load_drug_interactions` adds edges
only (both endpoints are checked with `has_node` and already exist);
`_load_therapeutic_indications` adds each condition node before its edge. -/
def kg_nodes : List (String × String) :=
  indication_mappings.foldl
    (fun g p => p.2.foldl (fun g2 c => addNode g2 c "condition") g) nodes_after_classes

/-- Undirected edge list of the graph: `belongs_to_class` edges, then
`interacts_with` edges (guarded by `has_node` on both endpoints, as in the
source), then `treats` edges (guarded by `has_node` on the drug). -/
def kg_edges : List (String × String) :=
  (drug_classes.foldl (fun e p => e ++ p.2.map (fun c => (p.1, c))) [])
  ++ (raw_interactions.filterMap (fun p =>
        if hasNode nodes_after_classes p.1.1 && hasNode nodes_after_classes p.1.2 then
          some (p.1.1, p.1.2)
        else none))
  ++ (indication_mappings.foldl (fun e p =>
        e ++ (if hasNode nodes_after_classes p.1 then p.2.map (fun c => (p.1, c)) else [])) [])

/-- Neighbours of `v` in an undirected edge list. -/
def neighborsOf (edges : List (String × String)) (v : String) : List String :=
  edges.foldl (fun acc e =>
    if e.1 == v then acc ++ [e.2] else if e.2 == v then acc ++ [e.1] else acc) []

/-- Breadth-first search by levels with explicit fuel; returns the distance of
the first level containing `target`, or `none` when `target` is unreachable. -/
def bfsLevel (edges : List (String × String)) (target : String) :
    Nat → List String → List String → Nat → Option Nat
  | 0, _, _, _ => none
  | _ + 1, [], _, _ => none
  | fuel + 1, frontier, visited, d =>
    if frontier.contains target then some d
    else
      let expanded := frontier.foldl (fun acc v => acc ++ neighborsOf edges v) []
      let next := expanded.filter
        (fun x => !(visited.contains x) && !(frontier.contains x))
      bfsLevel edges target fuel next.dedup (visited ++ frontier) (d + 1)

/-- Model of `networkx.shortest_path_length` on the knowledge graph
(`none` plays the role of the `NetworkXNoPath` exception). -/
def shortest_path_length (a b : String) : Option Nat :=
  bfsLevel kg_edges b (kg_nodes.length + 1) [a] [] 0

/-- Method `calculate_interaction_risk`: `1 / (path_length + 1)` when both
lowercased names are graph nodes and a path exists, else `0.0`. -/
def calculate_interaction_risk (med1 med2 : String) : ℚ :=
  let a := lowerStr med1
  let b := lowerStr med2
  if hasNode kg_nodes a && hasNode kg_nodes b then
    match shortest_path_length a b with
    | some d => 1 / ((d : ℚ) + 1)
    | none => 0
  else 0

/-- Counts returned by `get_stats` (the fields the claims are about). -/
structure KGStats where
  total_nodes : Nat
  drug_nodes : Nat
  condition_nodes : Nat
  drug_class_nodes : Nat
deriving DecidableEq, Repr

/-- Method `get_stats`: node totals and per-type node counts. -/
def get_stats : KGStats :=
  { total_nodes := kg_nodes.length
    drug_nodes := (kg_nodes.filter (fun p => p.2 == "drug")).length
    condition_nodes := (kg_nodes.filter (fun p => p.2 == "condition")).length
    drug_class_nodes := (kg_nodes.filter (fun p => p.2 == "drug_class")).length }

end MedicalKnowledgeGraph

/-! ### Vector search (`vector_search.py`) -/

namespace VectorSearch

/-- One formatted document of the in-memory store (spec §3 data model:
`publication_year` is an integer, `0` when unknown). -/
structure Doc where
  id : String := ""
  title : String := ""
  content : String := ""
  source : String := ""
  source_type : String := ""
  section_priority : Nat := 1
  mesh_terms : List String := []
  publication_year : Int := 0
deriving DecidableEq, Repr

/-- One element of the list returned by `search`: the document copy augmented
with `relevance_score` and `rank`. -/
structure SearchResult where
  doc : Doc
  relevance_score : ℚ
  rank : Nat
deriving DecidableEq, Repr

/-- The mutable state of a `VectorSearch` object: whether the sentence
transformer loaded, the FAISS index (modelled as the list of documents whose
embeddings it holds, in insertion order; `none` = not built), and
`self.documents`. -/
structure VSState where
  modelLoaded : Bool
  index : Option (List Doc)
  documents : List Doc
deriving DecidableEq, Repr

/-- Setting `VECTOR_SEARCH_TOP_K` from `config/settings.py`. -/
def vector_search_top_k : Nat := 5

/-- Model of the Python default `k = k or VECTOR_SEARCH_TOP_K`: `None` and the
falsy value `0` both select the default. -/
def effectiveK : Option Nat → Nat
  | none => vector_search_top_k
  | some 0 => vector_search_top_k
  | some (n + 1) => n + 1

/-- Method `load_processed_data`.  Its input is modelled as the list of
per-JSON-file document batches the formatting loop produces (the glob result
after `_format_document`); the method guards on the model, returns early when
no files are found, otherwise stores the flattened document list and, when it
is non-empty, builds the index over exactly those documents (`_create_index`
is modelled as always succeeding, embedding computation being external). -/
def load_processed_data (s : VSState) (files : List (List Doc)) : VSState :=
  if !s.modelLoaded then s
  else if files.isEmpty then s
  else
    let documents := files.flatten
    let s1 : VSState := { s with documents := documents }
    if documents.isEmpty then s1
    else { s1 with index := some documents }

/-- Method `_classify_document_type`: keyword search over the concatenation of
the lowercased title and content, first match winning. -/
def classify_document_type (d : Doc) : String :=
  let t := lowerStr d.title ++ lowerStr d.content
  if ["adverse", "safety", "warning"].any (fun s => strHasTerm t s) then "drug_safety"
  else if ["guideline", "recommendation"].any (fun s => strHasTerm t s) then "guidelines"
  else if ["mechanism", "pathway", "target"].any (fun s => strHasTerm t s) then "mechanisms"
  else if ["case", "patient", "report"].any (fun s => strHasTerm t s) then "case_studies"
  else "general"

/-- The `decay_rates` dict of `_calculate_temporal_relevance`, with the
`.get(doc_type, 0.5)` default. -/
def decay_rates (doc_type : String) : ℚ :=
  if doc_type == "drug_safety" then 9/10
  else if doc_type == "guidelines" then 7/10
  else if doc_type == "mechanisms" then 3/10
  else if doc_type == "case_studies" then 8/10
  else 1/2

/-- Method `_calculate_temporal_relevance` (`current_year = 2024`). -/
def calculate_temporal_relevance (d : Doc) : ℚ :=
  let pub_year := d.publication_year
  let decay_rate := decay_rates (classify_document_type d)
  if pub_year > 0 then
    max (1/10) (1 - (((2024 - pub_year : Int) : ℚ) * decay_rate) / 20)
  else 1/2

/-- The additive part of `_calculate_medical_relevance` (everything before the
final multiplication by the temporal weight): base cosine score plus lexical
overlap, mesh overlap, section-priority and recency bonuses. -/
def preMultiplierScore (d : Doc) (query_terms : List String) (base_score : ℚ) : ℚ :=
  let q := query_terms.dedup
  let content_terms := (pySplit (lowerStr d.content)).dedup
  let mesh_terms := (d.mesh_terms.map lowerStr).dedup
  let term_overlap : ℚ :=
    if q.isEmpty then 0 else (interCount q content_terms : ℚ) / (q.length : ℚ)
  let mesh_overlap : ℚ :=
    if q.isEmpty then 0 else (interCount q mesh_terms : ℚ) / (q.length : ℚ)
  let s1 := base_score + term_overlap * (2/10) + mesh_overlap * (3/10)
  let s2 := s1 + ((d.section_priority : ℚ) / 5) * (1/10)
  if d.source_type == "pubmed_article" then
    if d.publication_year > 0 then
      s2 + (max 0 (((d.publication_year : ℚ) - 2000) / (2024 - 2000))) * (1/10)
    else s2
  else s2

/-- Method `_calculate_medical_relevance`: the additive score times the
temporal relevance weight. -/
def calculate_medical_relevance (d : Doc) (query_terms : List String) (base_score : ℚ) : ℚ :=
  preMultiplierScore d query_terms base_score * calculate_temporal_relevance d

/-- Stable descending insertion by similarity score (first component):
a new pair goes after every pair with an equal or higher score. -/
def insertScoreDesc (r : ℚ × Nat) : List (ℚ × Nat) → List (ℚ × Nat)
  | [] => [r]
  | x :: xs => if x.1 < r.1 then r :: x :: xs else x :: insertScoreDesc r xs

/-- Stable sort by descending score: elements inserted in input order. -/
def sortScoresDesc (l : List (ℚ × Nat)) : List (ℚ × Nat) :=
  l.foldl (fun acc r => insertScoreDesc r acc) []

/-- Stable descending insertion of a search result by `relevance_score`. -/
def insertResultDesc (r : SearchResult) : List SearchResult → List SearchResult
  | [] => [r]
  | x :: xs =>
    if x.relevance_score < r.relevance_score then r :: x :: xs
    else x :: insertResultDesc r xs

/-- Model of Python `sorted(results, key=relevance_score, reverse=True)`
(a stable descending sort). -/
def sortResultsDesc (l : List SearchResult) : List SearchResult :=
  l.foldl (fun acc r => insertResultDesc r acc) []

/-- Model of `self.index.search(query_embedding, n)`: score every indexed
document with the external similarity function `sim`, and return the `n` best
`(score, position)` pairs in descending score order. -/
def indexSearch (ixDocs : List Doc) (sim : String → Doc → ℚ) (q : String) (n : Nat) :
    List (ℚ × Nat) :=
  (sortScoresDesc (ixDocs.enum.map (fun p => (sim q p.2, p.1)))).take n

/-- Method `search`.  `sim` abstracts the composition of `model.encode` and the
inner product on normalised embeddings; `k = none` models the Python default
argument.  Returns `[]` when the model or index is missing, otherwise
retrieves `min(k*3, len(documents))` candidates, rescores them with
`_calculate_medical_relevance`, re-sorts, and truncates to `k`. -/
def search (sim : String → Doc → ℚ) (s : VSState) (query : String) (k : Option Nat) :
    List SearchResult :=
  match s.index with
  | none => []
  | some ixDocs =>
    if !s.modelLoaded then []
    else
      let kk := effectiveK k
      let extended_k := min (kk * 3) s.documents.length
      let pairs := indexSearch ixDocs sim query extended_k
      let query_terms := (pySplit (lowerStr query)).dedup
      let results := pairs.enum.filterMap (fun pr =>
        match s.documents.get? pr.2.2 with
        | some d =>
          some { doc := d
                 relevance_score := calculate_medical_relevance d query_terms pr.2.1
                 rank := pr.1 + 1 }
        | none => none)
      (sortResultsDesc results).take kk

/-- The fixed generic `medical_terms` list of `search_by_medications`. -/
def medical_terms : List String := [
  "medication", "treatment", "dosage", "side effects", "contraindications",
  "drug interaction", "pharmacology", "therapeutic monitoring",
  "adverse events", "efficacy"]

/-- The query string composed by `search_by_medications` before it delegates to
`search`: each medication name followed by its pharmacological classes and
therapeutic indications, then the fixed generic medical terms, joined with
single spaces. -/
def search_by_medications_query (medications : List String) : String :=
  let query_parts :=
    (medications.map (fun med =>
      med :: (MedicalKnowledgeGraph.get_pharmacological_class med
               ++ MedicalKnowledgeGraph.get_therapeutic_indications med))).flatten
    ++ medical_terms
  String.intercalate " " query_parts

/-- First pass of `_ensure_result_diversity`: keep one result per unique
source, in first-seen order (`seen` is the seen-source set). -/
def diversityPass1 (seen : List String) : List SearchResult → List SearchResult
  | [] => []
  | r :: rs =>
    if r.doc.source ∈ seen then diversityPass1 seen rs
    else r :: diversityPass1 (r.doc.source :: seen) rs

/-- Second pass of `_ensure_result_diversity`: append every remaining result
not already present, while the accumulated list is shorter than the original
input (`orig` is `len(results)`). -/
def diversityPass2 (orig : Nat) : List SearchResult → List SearchResult → List SearchResult
  | [], acc => acc
  | r :: rs, acc =>
    if r ∉ acc ∧ acc.length < orig then diversityPass2 orig rs (acc ++ [r])
    else diversityPass2 orig rs acc

/-- Method `_ensure_result_diversity`: the two passes in sequence. -/
def ensure_result_diversity (results : List SearchResult) : List SearchResult :=
  diversityPass2 results.length results (diversityPass1 [] results)

end VectorSearch

/-! ### Concrete fixtures used by witnesses and counterexamples -/

/-- A similarity function assigning score `0` to every document (a concrete
instance of the external embedding provider). -/
def simZero : String → VectorSearch.Doc → ℚ := fun _ _ => 0

/-- A sample stored document. -/
def d0 : VectorSearch.Doc :=
  { id := "d0", title := "t", content := "c", source := "s" }

/-- A prior state holding one loaded document and a built index over it. -/
def c1PriorState : VectorSearch.VSState :=
  { modelLoaded := true, index := some [d0], documents := [d0] }

/-- A 1995 document classified as `mechanisms` (its text mentions a pathway
keyword and no safety or guideline keyword). -/
def mechDoc1995 : VectorSearch.Doc :=
  { id := "m", title := "drug mechanism study", content := "pathway of action",
    source := "litA", publication_year := 1995 }

/-- A 1995 document classified as `drug_safety` (its text mentions a safety
keyword). -/
def safeDoc1995 : VectorSearch.Doc :=
  { id := "sf", title := "drug safety data", content := "adverse findings",
    source := "litB", publication_year := 1995 }

/-- Five distinct search results from sources A, A, B, B, C (scenario 5). -/
def w1 : VectorSearch.SearchResult :=
  { doc := { id := "1", source := "A" }, relevance_score := 9, rank := 1 }

/-- Second result from source A. -/
def w2 : VectorSearch.SearchResult :=
  { doc := { id := "2", source := "A" }, relevance_score := 8, rank := 2 }

/-- First result from source B. -/
def w3 : VectorSearch.SearchResult :=
  { doc := { id := "3", source := "B" }, relevance_score := 7, rank := 3 }

/-- Second result from source B. -/
def w4 : VectorSearch.SearchResult :=
  { doc := { id := "4", source := "B" }, relevance_score := 6, rank := 4 }

/-- A result from source C. -/
def w5 : VectorSearch.SearchResult :=
  { doc := { id := "5", source := "C" }, relevance_score := 5, rank := 5 }

/-! ### Helper lemmas on the string order -/

/-- Totality of the lexicographic comparison on character lists. -/
theorem charsLe_total : ∀ (a b : List Char), charsLe a b = true ∨ charsLe b a = true
  | [], _ => Or.inl rfl
  | _ :: _, [] => Or.inr rfl
  | x :: xs, y :: ys => by
    rcases lt_trichotomy x y with h | h | h
    · left
      simp [charsLe, h]
    · subst h
      rcases charsLe_total xs ys with h2 | h2
      · left
        simp [charsLe, lt_irrefl, h2]
      · right
        simp [charsLe, lt_irrefl, h2]
    · right
      simp [charsLe, h]

/-- Antisymmetry of the lexicographic comparison on character lists. -/
theorem charsLe_antisymm : ∀ (a b : List Char),
    charsLe a b = true → charsLe b a = true → a = b
  | [], [], _, _ => rfl
  | [], _ :: _, _, h2 => by simp [charsLe] at h2
  | _ :: _, [], h1, _ => by simp [charsLe] at h1
  | x :: xs, y :: ys, h1, h2 => by
    rcases lt_trichotomy x y with h | h | h
    · exfalso
      simp [charsLe, h, lt_asymm h] at h2
    · subst h
      have hxy := charsLe_antisymm xs ys
        (by simpa [charsLe, lt_irrefl] using h1)
        (by simpa [charsLe, lt_irrefl] using h2)
      rw [hxy]
    · exfalso
      simp [charsLe, h, lt_asymm h] at h1

/-- Antisymmetry of the modelled Python string comparison. -/
theorem strLe_antisymm (a b : String) (h1 : strLe a b = true) (h2 : strLe b a = true) :
    a = b := by
  cases a with
  | mk da =>
    cases b with
    | mk db => exact congrArg String.mk (charsLe_antisymm da db h1 h2)

/-- Sorting a two-element list is order-independent: the canonical pair of
`{a, b}` does not depend on the order the two names are supplied. -/
theorem sortPair_comm (a b : String) : sortPair a b = sortPair b a := by
  by_cases hab : strLe a b = true
  · by_cases hba : strLe b a = true
    · have hEq := strLe_antisymm a b hab hba
      subst hEq
      rfl
    · simp [sortPair, hab, hba]
  · by_cases hba : strLe b a = true
    · simp [sortPair, hab, hba]
    · exfalso
      rcases charsLe_total a.data b.data with h | h
      · exact hab h
      · exact hba h

/-! ### C4: order-independence of interaction analysis -/

/-- C4 counterexample: the two calls do NOT return the same record. The code
fills `drug1`/`drug2` from the input order, so `analyzeInteractions`
on `["warfarin","aspirin"]` and on `["aspirin","warfarin"]` return records
that differ (the drug fields are swapped), refuting the claim that the very
same interaction record is returned. -/
theorem c4_counterexample :
    MedicalKnowledgeGraph.analyze_drug_interactions ["warfarin", "aspirin"]
      ≠ MedicalKnowledgeGraph.analyze_drug_interactions ["aspirin", "warfarin"] := by
  decide

/-- C4 (amended): `analyzeInteractions(["A","B"])` and
`analyzeInteractions(["B","A"])` agree up to swapping the `drug1`/`drug2`
fields: after canonicalising each record's drug pair by sorting, the two
calls return identical records, so severity and risk are unchanged (the pair
lookup is canonicalised by sorting the lowercased names); a pair absent from
the static table produces no record at all in either call. -/
theorem c4_amended_symmetry (a b : String) :
    (MedicalKnowledgeGraph.analyze_drug_interactions [a, b]).map
        (fun r => (sortPair r.drug1 r.drug2, r.severity, r.risk))
      = (MedicalKnowledgeGraph.analyze_drug_interactions [b, a]).map
        (fun r => (sortPair r.drug1 r.drug2, r.severity, r.risk)) ∧
    (MedicalKnowledgeGraph.get_drug_interaction (lowerStr a) (lowerStr b) = none →
      MedicalKnowledgeGraph.analyze_drug_interactions [a, b] = []
        ∧ MedicalKnowledgeGraph.analyze_drug_interactions [b, a] = []) := by
  have hkey : MedicalKnowledgeGraph.get_drug_interaction (lowerStr a) (lowerStr b)
      = MedicalKnowledgeGraph.get_drug_interaction (lowerStr b) (lowerStr a) := by
    unfold MedicalKnowledgeGraph.get_drug_interaction
    rw [sortPair_comm]
  cases hopt : MedicalKnowledgeGraph.get_drug_interaction (lowerStr a) (lowerStr b) with
  | none =>
    have hopt2 : MedicalKnowledgeGraph.get_drug_interaction (lowerStr b) (lowerStr a) = none := by
      rw [← hkey]
      exact hopt
    constructor
    · simp [MedicalKnowledgeGraph.analyze_drug_interactions, MedicalKnowledgeGraph.pairsAfter,
        hopt, hopt2]
    · intro _
      constructor
      · simp [MedicalKnowledgeGraph.analyze_drug_interactions, MedicalKnowledgeGraph.pairsAfter,
          hopt]
      · simp [MedicalKnowledgeGraph.analyze_drug_interactions, MedicalKnowledgeGraph.pairsAfter,
          hopt2]
  | some dd =>
    have hopt2 : MedicalKnowledgeGraph.get_drug_interaction (lowerStr b) (lowerStr a) = some dd := by
      rw [← hkey]
      exact hopt
    constructor
    · simp [MedicalKnowledgeGraph.analyze_drug_interactions,
        MedicalKnowledgeGraph.pairsAfter, hopt, hopt2,
        sortPair_comm (lowerStr a) (lowerStr b)]
    · intro hna
      cases hna

/-- C4 witness: the amended theorem applied to the concrete pair
(warfarin, aspirin) of the table, and to the absent pair (aspirin, insulin). -/
theorem c4_amended_symmetry_witness :
    ((MedicalKnowledgeGraph.analyze_drug_interactions ["warfarin", "aspirin"]).map
        (fun r => (sortPair r.drug1 r.drug2, r.severity, r.risk))
      = (MedicalKnowledgeGraph.analyze_drug_interactions ["aspirin", "warfarin"]).map
        (fun r => (sortPair r.drug1 r.drug2, r.severity, r.risk))) ∧
    (MedicalKnowledgeGraph.analyze_drug_interactions ["aspirin", "insulin"] = []
      ∧ MedicalKnowledgeGraph.analyze_drug_interactions ["insulin", "aspirin"] = []) :=
  ⟨(c4_amended_symmetry "warfarin" "aspirin").1,
   (c4_amended_symmetry "aspirin" "insulin").2 (by decide)⟩

/-! ### C7: medication query composition -/

/-- C7: the query composed by `search_by_medications(["metformin"])` contains
(as substrings) the medication name, both of its pharmacological classes,
all three of its therapeutic indications, and every fixed generic medical
term. -/
theorem c7_medication_query_terms :
    ((["metformin", "antidiabetic", "biguanide", "type2_diabetes", "prediabetes", "pcos"]
        ++ VectorSearch.medical_terms).all
      (fun t => strHasTerm (VectorSearch.search_by_medications_query ["metformin"]) t)) = true := by
  decide

/-! ### C10: node-type partition of the knowledge graph -/

set_option maxRecDepth 8000 in
/-- C10: in the knowledge graph built from the static tables, every node
carries exactly one of the types drug, condition, drug_class (each node name
occurs once and its type is one of the three), hence the stats satisfy
`drug_nodes + condition_nodes + drug_class_nodes = total_nodes`. -/
theorem c10_kg_node_type_partition :
    MedicalKnowledgeGraph.get_stats.drug_nodes + MedicalKnowledgeGraph.get_stats.condition_nodes
        + MedicalKnowledgeGraph.get_stats.drug_class_nodes
      = MedicalKnowledgeGraph.get_stats.total_nodes ∧
    (MedicalKnowledgeGraph.kg_nodes.all
      (fun p => p.2 == "drug" || p.2 == "condition" || p.2 == "drug_class")) = true ∧
    (MedicalKnowledgeGraph.kg_nodes.map Prod.fst).Nodup := by
  refine ⟨by decide, by decide, by decide⟩

/-! ### C8: interaction risk bounds -/

/-- C8: `calculate_interaction_risk` always returns a rational in `[0, 1]`
(it is a total function, so it never throws); it equals
`1 / (pathLength + 1)` when both lowercased names are graph nodes and the
shortest-path search finds a path of length `pathLength`, and `0` when no
path exists or either name is not a node of the graph. -/
theorem c8_interaction_risk_bounds (med1 med2 : String) :
    0 ≤ MedicalKnowledgeGraph.calculate_interaction_risk med1 med2 ∧
    MedicalKnowledgeGraph.calculate_interaction_risk med1 med2 ≤ 1 ∧
    (∀ d : Nat,
      (MedicalKnowledgeGraph.hasNode MedicalKnowledgeGraph.kg_nodes (lowerStr med1)
        && MedicalKnowledgeGraph.hasNode MedicalKnowledgeGraph.kg_nodes (lowerStr med2)) = true →
      MedicalKnowledgeGraph.shortest_path_length (lowerStr med1) (lowerStr med2) = some d →
      MedicalKnowledgeGraph.calculate_interaction_risk med1 med2 = 1 / ((d : ℚ) + 1)) ∧
    ((MedicalKnowledgeGraph.hasNode MedicalKnowledgeGraph.kg_nodes (lowerStr med1)
        && MedicalKnowledgeGraph.hasNode MedicalKnowledgeGraph.kg_nodes (lowerStr med2)) = true →
      MedicalKnowledgeGraph.shortest_path_length (lowerStr med1) (lowerStr med2) = none →
      MedicalKnowledgeGraph.calculate_interaction_risk med1 med2 = 0) ∧
    ((MedicalKnowledgeGraph.hasNode MedicalKnowledgeGraph.kg_nodes (lowerStr med1)
        && MedicalKnowledgeGraph.hasNode MedicalKnowledgeGraph.kg_nodes (lowerStr med2)) = false →
      MedicalKnowledgeGraph.calculate_interaction_risk med1 med2 = 0) := by
  unfold MedicalKnowledgeGraph.calculate_interaction_risk
  cases hc : (MedicalKnowledgeGraph.hasNode MedicalKnowledgeGraph.kg_nodes (lowerStr med1)
      && MedicalKnowledgeGraph.hasNode MedicalKnowledgeGraph.kg_nodes (lowerStr med2)) with
  | false =>
    simp [hc]
  | true =>
    cases hp : MedicalKnowledgeGraph.shortest_path_length (lowerStr med1) (lowerStr med2) with
    | none =>
      simp [hc, hp]
    | some d =>
      have hpos : (0 : ℚ) < (d : ℚ) + 1 := by positivity
      have hge : (1 : ℚ) ≤ (d : ℚ) + 1 := by
        have := Nat.cast_nonneg (α := ℚ) d
        linarith
      simp only [hc, hp, if_true, Bool.true_eq_false, false_implies, and_true,
        Option.some.injEq, reduceCtorEq, IsEmpty.forall_iff, implies_true, true_and]
      refine ⟨le_of_lt (by positivity), ?_, ?_⟩
      · rw [div_le_one hpos]
        exact hge
      · intro e he1 he2
        rw [he2]

set_option maxRecDepth 8000 in
/-- C8 witness: warfarin and aspirin are both graph nodes, joined by a direct
`interacts_with` edge, so the risk is `1 / (1 + 1)`. -/
theorem c8_interaction_risk_bounds_witness :
    MedicalKnowledgeGraph.calculate_interaction_risk "warfarin" "aspirin"
      = 1 / (((1 : Nat) : ℚ) + 1) ∧
    0 ≤ MedicalKnowledgeGraph.calculate_interaction_risk "warfarin" "aspirin" :=
  ⟨(c8_interaction_risk_bounds "warfarin" "aspirin").2.2.1 1 (by decide) (by decide),
   (c8_interaction_risk_bounds "warfarin" "aspirin").1⟩

/-! ### Helper lemmas: the stable sorts preserve length -/

/-- Inserting into the score-sorted candidate list adds one element. -/
theorem insertScoreDesc_length (r : ℚ × Nat) :
    ∀ l : List (ℚ × Nat), (VectorSearch.insertScoreDesc r l).length = l.length + 1
  | [] => rfl
  | x :: xs => by
    unfold VectorSearch.insertScoreDesc
    by_cases h : x.1 < r.1
    · simp [h]
    · simp [h, insertScoreDesc_length r xs]

/-- The candidate sort's fold preserves total length. -/
theorem sortScoresDesc_aux_length : ∀ (l acc : List (ℚ × Nat)),
    (l.foldl (fun acc r => VectorSearch.insertScoreDesc r acc) acc).length
      = acc.length + l.length
  | [], acc => by simp
  | x :: xs, acc => by
    simp only [List.foldl_cons]
    rw [sortScoresDesc_aux_length xs _, insertScoreDesc_length]
    simp only [List.length_cons]
    omega

/-- The candidate sort preserves length. -/
theorem sortScoresDesc_length (l : List (ℚ × Nat)) :
    (VectorSearch.sortScoresDesc l).length = l.length := by
  unfold VectorSearch.sortScoresDesc
  rw [sortScoresDesc_aux_length]
  simp

/-- Inserting into the result-sorted list adds one element. -/
theorem insertResultDesc_length (r : VectorSearch.SearchResult) :
    ∀ l : List VectorSearch.SearchResult,
      (VectorSearch.insertResultDesc r l).length = l.length + 1
  | [] => rfl
  | x :: xs => by
    unfold VectorSearch.insertResultDesc
    by_cases h : x.relevance_score < r.relevance_score
    · simp [h]
    · simp [h, insertResultDesc_length r xs]

/-- The result sort's fold preserves total length. -/
theorem sortResultsDesc_aux_length : ∀ (l acc : List VectorSearch.SearchResult),
    (l.foldl (fun acc r => VectorSearch.insertResultDesc r acc) acc).length
      = acc.length + l.length
  | [], acc => by simp
  | x :: xs, acc => by
    simp only [List.foldl_cons]
    rw [sortResultsDesc_aux_length xs _, insertResultDesc_length]
    simp only [List.length_cons]
    omega

/-- The result sort preserves length. -/
theorem sortResultsDesc_length (l : List VectorSearch.SearchResult) :
    (VectorSearch.sortResultsDesc l).length = l.length := by
  unfold VectorSearch.sortResultsDesc
  rw [sortResultsDesc_aux_length]
  simp

/-- For a positive requested count the Python default is not triggered. -/
theorem effectiveK_of_pos (k : Nat) (hk : 1 ≤ k) :
    VectorSearch.effectiveK (some k) = k := by
  cases k with
  | zero => omega
  | succ n => rfl

/-- Length bound for the sort-then-truncate tail of `search`, for any
per-candidate result builder `f`. -/
theorem take_sortResults_length_le (f : Nat × (ℚ × Nat) → Option VectorSearch.SearchResult)
    (pairs : List (ℚ × Nat)) (kk n : Nat) (hp : pairs.length ≤ n) :
    ((VectorSearch.sortResultsDesc (pairs.enum.filterMap f)).take kk).length ≤ min kk n := by
  rw [List.length_take]
  have h1 : (VectorSearch.sortResultsDesc (pairs.enum.filterMap f)).length ≤ n := by
    rw [sortResultsDesc_length]
    calc (pairs.enum.filterMap f).length
        ≤ pairs.enum.length := List.length_filterMap_le f _
      _ = pairs.length := List.enum_length
      _ ≤ n := hp
  omega

/-! ### C1: empty build input -/

/-- C1 counterexample: invoking the build on a prior state holding one loaded
document and a built index, with one input file that yields no documents
(so the set of input documents obtained is empty), leaves the index untouched
but OVERWRITES the in-memory document list with the empty list — the prior
state is not left unchanged as the claim requires. -/
theorem c1_counterexample :
    (VectorSearch.load_processed_data c1PriorState [[]]).documents ≠ c1PriorState.documents ∧
    (VectorSearch.load_processed_data c1PriorState [[]]).index = c1PriorState.index := by
  refine ⟨by decide, by decide⟩

/-- C1 (amended): when the build obtains no input documents it halts without
building an index, and the previously loaded in-memory index is always left
unchanged; the full state (document list included) is unchanged when the
model is unavailable or when no input files are found at all, but when input
files exist yet yield zero documents, the in-memory document list is
overwritten with the empty list. -/
theorem c1_amended_empty_build (s : VectorSearch.VSState)
    (files : List (List VectorSearch.Doc)) (h : files.flatten = []) :
    (VectorSearch.load_processed_data s files).index = s.index ∧
    (s.modelLoaded = false → VectorSearch.load_processed_data s files = s) ∧
    (files = [] → VectorSearch.load_processed_data s files = s) ∧
    (s.modelLoaded = true → files ≠ [] →
      (VectorSearch.load_processed_data s files).documents = []) := by
  unfold VectorSearch.load_processed_data
  cases hm : s.modelLoaded with
  | false => simp
  | true =>
    cases files with
    | nil => simp
    | cons f fs => simp [h]

/-- C1 witness: the amended theorem applied to the concrete prior state with
no input files at all. -/
theorem c1_amended_empty_build_witness :
    (([] : List (List VectorSearch.Doc)).flatten = []) ∧
    VectorSearch.load_processed_data c1PriorState [] = c1PriorState :=
  ⟨rfl, (c1_amended_empty_build c1PriorState [] rfl).2.2.1 rfl⟩

/-! ### C2: graceful degradation of search -/

/-- C2: for every query and every requested count, `search` on a state whose
index was never built (`none`), or whose index is empty, or whose embedding
model is unavailable, returns the empty list.  `search` is a total function
of the embedded state, so no exception reaches the caller. -/
theorem c2_search_graceful_degradation (sim : String → VectorSearch.Doc → ℚ)
    (s : VectorSearch.VSState) (q : String) (k : Option Nat)
    (h : s.index = none ∨ s.index = some [] ∨ s.modelLoaded = false) :
    VectorSearch.search sim s q k = [] := by
  unfold VectorSearch.search
  rcases h with h | h | h
  · rw [h]
  · rw [h]
    cases hm : s.modelLoaded <;>
      simp [VectorSearch.indexSearch, VectorSearch.sortScoresDesc,
        VectorSearch.sortResultsDesc]
  · cases hix : s.index with
    | none => rfl
    | some ixDocs => simp [h]

/-- C2 witness: searching a never-built index returns the empty list. -/
theorem c2_search_graceful_degradation_witness :
    VectorSearch.search simZero
      { modelLoaded := true, index := none, documents := [] } "aspirin dosage" none = [] :=
  c2_search_graceful_degradation simZero
    { modelLoaded := true, index := none, documents := [] } "aspirin dosage" none (Or.inl rfl)

/-! ### C3: result-count bound -/

/-- C3 counterexample: `search(q, 0)` does not return at most
`min(0, len(documents))` results.  The Python default `k = k or TOP_K`
treats `k = 0` as falsy, so the call uses the default `k = 5` and (on a
one-document index) returns one result instead of zero. -/
theorem c3_counterexample :
    (VectorSearch.search simZero c1PriorState "q" (some 0)).length = 1 ∧
    ¬ ((VectorSearch.search simZero c1PriorState "q" (some 0)).length
        ≤ min 0 c1PriorState.documents.length) := by
  refine ⟨by decide, by decide⟩

/-- C3 (amended): for every query, every requested count `k >= 1`, and every
state, `search` returns at most `min(k, len(documents))` results.  At
`k = 0` the code substitutes the default `VECTOR_SEARCH_TOP_K = 5` (Python
`k or default` treats `0` as falsy), so the bound holds only from `k = 1`
upwards. -/
theorem c3_amended_k_bound (sim : String → VectorSearch.Doc → ℚ)
    (s : VectorSearch.VSState) (q : String) (k : Nat) (hk : 1 ≤ k) :
    (VectorSearch.search sim s q (some k)).length ≤ min k s.documents.length := by
  unfold VectorSearch.search
  cases hix : s.index with
  | none => simp
  | some ixDocs =>
    cases hm : s.modelLoaded with
    | false => simp
    | true =>
      simp only [Bool.not_true, Bool.false_eq_true, if_false, effectiveK_of_pos k hk]
      have hp : (VectorSearch.indexSearch ixDocs sim q
          (min (k * 3) s.documents.length)).length ≤ s.documents.length := by
        unfold VectorSearch.indexSearch
        rw [List.length_take]
        omega
      exact take_sortResults_length_le _ _ k s.documents.length hp

/-- C3 witness: the amended bound applied at `k = 1` on the one-document
state. -/
theorem c3_amended_k_bound_witness :
    1 ≤ 1 ∧
    (VectorSearch.search simZero c1PriorState "q" (some 1)).length
      ≤ min 1 c1PriorState.documents.length :=
  ⟨le_refl 1, c3_amended_k_bound simZero c1PriorState "q" 1 (le_refl 1)⟩

/-! ### C5: temporal decay weighting -/

/-- A document classified `mechanisms` and dated 1995 has temporal weight
`max(0.1, 1 - 29 * 0.3 / 20) = 0.565`. -/
theorem temporal_mech_1995 (d : VectorSearch.Doc)
    (hc : VectorSearch.classify_document_type d = "mechanisms")
    (hy : d.publication_year = 1995) :
    VectorSearch.calculate_temporal_relevance d = 113/200 := by
  unfold VectorSearch.calculate_temporal_relevance
  rw [hc, hy]
  have hr : VectorSearch.decay_rates "mechanisms" = 3/10 := rfl
  rw [hr]
  norm_num

/-- A document classified `drug_safety` and dated 1995 has temporal weight
floored at `0.1`. -/
theorem temporal_safety_1995 (d : VectorSearch.Doc)
    (hc : VectorSearch.classify_document_type d = "drug_safety")
    (hy : d.publication_year = 1995) :
    VectorSearch.calculate_temporal_relevance d = 1/10 := by
  unfold VectorSearch.calculate_temporal_relevance
  rw [hc, hy]
  have hr : VectorSearch.decay_rates "drug_safety" = 9/10 := rfl
  rw [hr]
  norm_num

/-- C5: the temporal weight follows the claimed formula
`max(0.1, 1 - (2024 - pubYear) * decayRate / 20)` for known (positive)
publication years and is `0.5` for unknown ones; the decay rates are 0.9 for
drug_safety, 0.7 for guidelines, 0.3 for mechanisms, 0.8 for case_studies and
0.5 otherwise; a 1995 mechanisms document gets weight 0.565 and a 1995
drug_safety document gets the floor 0.1; and under equal positive
pre-multiplier scores the mechanisms document receives a strictly higher
final relevance score than the drug_safety one. -/
theorem c5_temporal_weighting :
    (∀ d : VectorSearch.Doc,
      (d.publication_year > 0 →
        VectorSearch.calculate_temporal_relevance d
          = max (1/10)
              (1 - (((2024 - d.publication_year : Int) : ℚ)
                  * VectorSearch.decay_rates (VectorSearch.classify_document_type d)) / 20)) ∧
      (¬ d.publication_year > 0 → VectorSearch.calculate_temporal_relevance d = 1/2) ∧
      (VectorSearch.classify_document_type d = "mechanisms" → d.publication_year = 1995 →
        VectorSearch.calculate_temporal_relevance d = 113/200) ∧
      (VectorSearch.classify_document_type d = "drug_safety" → d.publication_year = 1995 →
        VectorSearch.calculate_temporal_relevance d = 1/10)) ∧
    (VectorSearch.decay_rates "drug_safety" = 9/10
      ∧ VectorSearch.decay_rates "guidelines" = 7/10
      ∧ VectorSearch.decay_rates "mechanisms" = 3/10
      ∧ VectorSearch.decay_rates "case_studies" = 8/10
      ∧ VectorSearch.decay_rates "general" = 1/2) ∧
    (∀ (d1 d2 : VectorSearch.Doc) (q1 q2 : List String) (s1 s2 : ℚ),
      VectorSearch.classify_document_type d1 = "mechanisms" → d1.publication_year = 1995 →
      VectorSearch.classify_document_type d2 = "drug_safety" → d2.publication_year = 1995 →
      VectorSearch.preMultiplierScore d1 q1 s1 = VectorSearch.preMultiplierScore d2 q2 s2 →
      0 < VectorSearch.preMultiplierScore d1 q1 s1 →
      VectorSearch.calculate_medical_relevance d2 q2 s2
        < VectorSearch.calculate_medical_relevance d1 q1 s1) := by
  refine ⟨fun d => ⟨?_, ?_, temporal_mech_1995 d, temporal_safety_1995 d⟩,
    ⟨rfl, rfl, rfl, rfl, rfl⟩, ?_⟩
  · intro hy
    unfold VectorSearch.calculate_temporal_relevance
    rw [if_pos hy]
  · intro hy
    unfold VectorSearch.calculate_temporal_relevance
    rw [if_neg hy]
  · intro d1 d2 q1 q2 s1 s2 hc1 hy1 hc2 hy2 heq hpos
    unfold VectorSearch.calculate_medical_relevance
    rw [temporal_mech_1995 d1 hc1 hy1, temporal_safety_1995 d2 hc2 hy2, ← heq]
    have h : (1/10 : ℚ) < 113/200 := by norm_num
    exact mul_lt_mul_of_pos_left h hpos

/-- C5 witness: the concrete 1995 mechanisms and drug_safety documents get
temporal weights 0.565 and 0.1 respectively. -/
theorem c5_temporal_weighting_witness :
    VectorSearch.calculate_temporal_relevance mechDoc1995 = 113/200 ∧
    VectorSearch.calculate_temporal_relevance safeDoc1995 = 1/10 :=
  ⟨(c5_temporal_weighting.1 mechDoc1995).2.2.1 (by decide) rfl,
   (c5_temporal_weighting.1 safeDoc1995).2.2.2 (by decide) rfl⟩

/-! ### Helper lemmas for the diversity passes -/

/-- The first diversity pass returns a sublist of its input. -/
theorem diversityPass1_sublist : ∀ (seen : List String) (l : List VectorSearch.SearchResult),
    (VectorSearch.diversityPass1 seen l).Sublist l
  | _, [] => List.Sublist.refl []
  | seen, r :: rs => by
    unfold VectorSearch.diversityPass1
    by_cases h : r.doc.source ∈ seen
    · rw [if_pos h]
      exact (diversityPass1_sublist seen rs).cons r
    · rw [if_neg h]
      exact (diversityPass1_sublist (r.doc.source :: seen) rs).cons₂ r

/-- Invariant of the second diversity pass: starting from a duplicate-free
accumulator drawn from the duplicate-free ambient list `M` and feeding it
elements of `M`, the pass keeps the output duplicate-free and its members are
exactly the accumulator's plus the fed elements (the length guard never
blocks, by a cardinality argument). -/
theorem diversityPass2_spec (M : List VectorSearch.SearchResult) (hM : M.Nodup) :
    ∀ (l acc : List VectorSearch.SearchResult), acc.Nodup → (∀ x ∈ acc, x ∈ M) →
      (∀ x ∈ l, x ∈ M) →
      (VectorSearch.diversityPass2 M.length l acc).Nodup ∧
      (∀ x, x ∈ VectorSearch.diversityPass2 M.length l acc ↔ (x ∈ acc ∨ x ∈ l))
  | [], acc, hacc, _, _ => by
    unfold VectorSearch.diversityPass2
    exact ⟨hacc, fun x => by simp⟩
  | r :: rs, acc, hacc, hsub, hl => by
    unfold VectorSearch.diversityPass2
    by_cases hr : r ∈ acc
    · rw [if_neg (by simp [hr])]
      obtain ⟨hn, hm⟩ := diversityPass2_spec M hM rs acc hacc hsub
        (fun x hx => hl x (List.mem_cons_of_mem r hx))
      refine ⟨hn, fun x => ?_⟩
      rw [hm x]
      constructor
      · rintro (hx | hx)
        · exact Or.inl hx
        · exact Or.inr (List.mem_cons_of_mem r hx)
      · rintro (hx | hx)
        · exact Or.inl hx
        · rcases List.mem_cons.mp hx with hx2 | hx2
          · subst hx2
            exact Or.inl hr
          · exact Or.inr hx2
    · have hrM : r ∈ M := hl r (List.mem_cons_self r rs)
      have hlen : acc.length < M.length := by
        have hsubf : acc.toFinset ⊆ M.toFinset := by
          intro x hx
          rw [List.mem_toFinset] at hx ⊢
          exact hsub x hx
        have hss : acc.toFinset ⊂ M.toFinset := by
          rw [Finset.ssubset_iff_of_subset hsubf]
          exact ⟨r, List.mem_toFinset.mpr hrM, fun hmem => hr (List.mem_toFinset.mp hmem)⟩
        have hcard := Finset.card_lt_card hss
        rwa [List.toFinset_card_of_nodup hacc, List.toFinset_card_of_nodup hM] at hcard
      rw [if_pos ⟨hr, hlen⟩]
      have hacc2 : (acc ++ [r]).Nodup := by
        rw [List.nodup_append]
        refine ⟨hacc, List.nodup_singleton r, ?_⟩
        intro x hx hx2
        rw [List.mem_singleton] at hx2
        subst hx2
        exact hr hx
      have hsub2 : ∀ x ∈ acc ++ [r], x ∈ M := by
        intro x hx
        rcases List.mem_append.mp hx with hx2 | hx2
        · exact hsub x hx2
        · rw [List.mem_singleton] at hx2
          subst hx2
          exact hrM
      obtain ⟨hn, hm⟩ := diversityPass2_spec M hM rs (acc ++ [r]) hacc2 hsub2
        (fun x hx => hl x (List.mem_cons_of_mem r hx))
      refine ⟨hn, fun x => ?_⟩
      rw [hm x]
      simp only [List.mem_append, List.mem_singleton, List.mem_cons]
      tauto

/-! ### C9: diversity re-ranking is a permutation -/

/-- C9: on any duplicate-free input, diversity re-ranking returns a
permutation of its input — same length and exactly the same elements, no
result lost or duplicated. -/
theorem c9_diversity_permutation (results : List VectorSearch.SearchResult)
    (h : results.Nodup) :
    (VectorSearch.ensure_result_diversity results).Perm results ∧
    (VectorSearch.ensure_result_diversity results).length = results.length := by
  have hsub := diversityPass1_sublist [] results
  have hnd1 : (VectorSearch.diversityPass1 [] results).Nodup := List.Nodup.sublist hsub h
  obtain ⟨hnd2, hiff⟩ := diversityPass2_spec results h results
    (VectorSearch.diversityPass1 [] results) hnd1 (fun x hx => hsub.subset hx)
    (fun x hx => hx)
  have hperm : (VectorSearch.ensure_result_diversity results).Perm results := by
    unfold VectorSearch.ensure_result_diversity
    rw [List.perm_ext_iff_of_nodup hnd2 h]
    intro a
    rw [hiff a]
    constructor
    · rintro (ha | ha)
      · exact hsub.subset ha
      · exact ha
    · exact fun ha => Or.inr ha
  exact ⟨hperm, hperm.length_eq⟩

/-- C9 witness: a concrete three-element duplicate-free result list is
permuted (here: returned intact up to reordering) by the diversity stage. -/
theorem c9_diversity_permutation_witness :
    ([w1, w2, w3] : List VectorSearch.SearchResult).Nodup ∧
    (VectorSearch.ensure_result_diversity [w1, w2, w3]).Perm [w1, w2, w3] :=
  ⟨by decide, (c9_diversity_permutation [w1, w2, w3] (by decide)).1⟩

/-! ### C6: the diversity scenario -/

/-- C6: on five pairwise-distinct results carrying sources A, A, B, B, C (A,
B, C pairwise distinct) in that order, diversity re-ranking keeps one result
per unique source in first-seen order and then appends the remaining results
up to the input's size: the output is `[r1, r3, r5, r2, r4]` with source
sequence `[A, B, C, A, B]` — diversity is a soft preference, not a hard
cap. -/
theorem c6_diversity_scenario (r1 r2 r3 r4 r5 : VectorSearch.SearchResult) (A B C : String)
    (h1 : r1.doc.source = A) (h2 : r2.doc.source = A) (h3 : r3.doc.source = B)
    (h4 : r4.doc.source = B) (h5 : r5.doc.source = C)
    (hAB : A ≠ B) (hAC : A ≠ C) (hBC : B ≠ C)
    (hnd : ([r1, r2, r3, r4, r5] : List VectorSearch.SearchResult).Nodup) :
    VectorSearch.ensure_result_diversity [r1, r2, r3, r4, r5] = [r1, r3, r5, r2, r4] ∧
    (VectorSearch.ensure_result_diversity [r1, r2, r3, r4, r5]).map (fun r => r.doc.source)
      = [A, B, C, A, B] := by
  simp only [List.nodup_cons, List.mem_cons, List.not_mem_nil, or_false, not_or,
    List.nodup_nil, and_true] at hnd
  obtain ⟨⟨h12, h13, h14, h15⟩, ⟨h23, h24, h25⟩, ⟨h34, h35⟩, h45, -⟩ := hnd
  have hp1 : VectorSearch.diversityPass1 [] [r1, r2, r3, r4, r5] = [r1, r3, r5] := by
    simp [VectorSearch.diversityPass1, h1, h2, h3, h4, h5, List.mem_cons,
      List.mem_singleton, List.not_mem_nil, Ne.symm hAB, Ne.symm hAC, Ne.symm hBC]
  have hp2 : VectorSearch.diversityPass2 5 [r1, r2, r3, r4, r5] [r1, r3, r5]
      = [r1, r3, r5, r2, r4] := by
    simp [VectorSearch.diversityPass2, List.mem_cons, List.mem_singleton,
      Ne.symm h12, Ne.symm h13, Ne.symm h14, Ne.symm h15, Ne.symm h23, Ne.symm h24,
      Ne.symm h25, Ne.symm h34, Ne.symm h35, Ne.symm h45,
      h12, h13, h14, h15, h23, h24, h25, h34, h35, h45]
  have hmain : VectorSearch.ensure_result_diversity [r1, r2, r3, r4, r5]
      = [r1, r3, r5, r2, r4] := by
    unfold VectorSearch.ensure_result_diversity
    rw [show ([r1, r2, r3, r4, r5] : List VectorSearch.SearchResult).length = 5 from rfl,
      hp1, hp2]
  refine ⟨hmain, ?_⟩
  rw [hmain]
  simp [h1, h2, h3, h4, h5]

/-- C6 witness: the scenario instantiated with five concrete results from
sources A, A, B, B, C. -/
theorem c6_diversity_scenario_witness :
    VectorSearch.ensure_result_diversity [w1, w2, w3, w4, w5] = [w1, w3, w5, w2, w4] ∧
    (VectorSearch.ensure_result_diversity [w1, w2, w3, w4, w5]).map (fun r => r.doc.source)
      = ["A", "B", "C", "A", "B"] :=
  c6_diversity_scenario w1 w2 w3 w4 w5 "A" "B" "C" rfl rfl rfl rfl rfl
    (by decide) (by decide) (by decide) (by decide)
